import Mathlib

/-!
Verification of the reimbursement formula in `calculate_reimbursement.py`.

The Python module is a pure function over three numeric scalars:
outlier classification (`detect_outlier_case`), branch-specific piecewise
formulas (`calculate_outlier_reimbursement`, `calculate_receipt_component`),
and a top-level dispatcher (`calculate_reimbursement`) that validates input,
dispatches, and rounds to two decimals.

Embedding conventions: `days` is `ℤ` (Python coerces it with `int(...)`),
`miles` and `receipts` are `ℚ` (idealising Python floats as exact numbers,
as the specification treats them as reals), and the outlier tag is a
`String`, exactly as in the source.  Rounding to two decimals is modelled
with Mathlib's `round` (round-half-up); the specification states that
tie-breaking at the half-penny is runtime-dependent and not load-bearing,
and no property below depends on it.
-/

namespace Reimbursement

/-- Mirrors `detect_outlier_case(days, miles, receipts)`: an ordered chain of
pattern rules, first match wins.  (The Python function also computes the
locals `receipts_per_day` and `miles_per_day`, but never uses them.) -/
def detect_outlier_case (days : ℤ) (miles receipts : ℚ) : String :=
  if receipts > 2000 ∧ days ≤ 4 ∧ miles ≤ 100 then "gaming_detection"
  else if receipts > 2300 ∧ days ≤ 5 ∧ miles ≤ 100 then "heavy_cap"
  else if days = 1 ∧ miles > 1000 ∧ receipts > 1800 then "abuse_detection"
  else "normal"

/-- Mirrors `calculate_receipt_component(total_receipts_amount)`: the
four-tier banded receipt formula with a final low-rate tail. -/
def calculate_receipt_component (total_receipts_amount : ℚ) : ℚ :=
  if total_receipts_amount > 1000 then
    1000 * 0.998 + (total_receipts_amount - 1000) * 0.3
  else if total_receipts_amount > 500 then
    500 * 1.610 + (total_receipts_amount - 500) * 0.998
  else if total_receipts_amount > 200 then
    200 * 2.258 + (total_receipts_amount - 200) * 1.610
  else if total_receipts_amount > 50 then
    50 * 3.610 + (total_receipts_amount - 50) * 2.258
  else
    total_receipts_amount * 3.610

/-- Mirrors `calculate_outlier_reimbursement(days, miles, receipts,
outlier_type)`: tag-specific linear coefficients, dispatched on the tag
string, with a fallback branch for unrecognised tags. -/
def calculate_outlier_reimbursement (days : ℤ) (miles receipts : ℚ)
    (outlier_type : String) : ℚ :=
  if outlier_type = "heavy_cap" then
    days * 45 + miles * 0.4 + receipts * 0.15
  else if outlier_type = "abuse_detection" then
    days * 40 + miles * 0.35 + receipts * 0.12
  else if outlier_type = "spending_cap" then
    days * 50 + miles * 0.45 + min receipts (days * 250) * 0.2
  else if outlier_type = "gaming_detection" then
    days * 35 + miles * 0.3 + receipts * 0.08
  else
    days * 50 + miles * 0.5 + receipts * 0.1

/-- Rounding to two decimal places, as Python's `round(total, 2)`.
Tie-breaking (half-up here, half-even in CPython) is explicitly not part of
the contract per the specification. -/
def round2 (x : ℚ) : ℚ := (round (x * 100) : ℤ) / 100

/-- The unrounded branch total computed by the body of
`calculate_reimbursement` after validation: the local variable `total`
just before `round(total, 2)`. -/
def branch_total (days : ℤ) (miles receipts : ℚ) : ℚ :=
  if detect_outlier_case days miles receipts ≠ "normal" then
    calculate_outlier_reimbursement days miles receipts
      (detect_outlier_case days miles receipts)
  else if receipts > 800 then
    100 + days * 20 + miles * 0.3 + calculate_receipt_component receipts
  else if receipts > 200 then
    50 + days * 35 + miles * 0.4 + receipts * 0.8
  else
    days * 50 + miles * 0.5 + receipts * 0.1

/-- Mirrors `calculate_reimbursement(trip_duration_days, miles_traveled,
total_receipts_amount)` on numeric inputs: validation (raising
`ValueError`, caught by the surrounding `try` which returns `0.0`),
dispatch, and central rounding. -/
def calculate_reimbursement (trip_duration_days : ℤ)
    (miles_traveled total_receipts_amount : ℚ) : ℚ :=
  if trip_duration_days ≤ 0 ∨ miles_traveled < 0 ∨ total_receipts_amount < 0 then
    0
  else
    round2 (branch_total trip_duration_days miles_traveled total_receipts_amount)

/-- Mirrors the coercion step `int(...)` / `float(...)` inside the `try`
block of `calculate_reimbursement`: a raw value that fails numeric coercion
is `none`, and the `except (ValueError, TypeError)` handler returns `0.0`. -/
def calculate_reimbursement_raw (d : Option ℤ) (m r : Option ℚ) : ℚ :=
  match d, m, r with
  | some days, some miles, some receipts => calculate_reimbursement days miles receipts
  | _, _, _ => 0

/-! ### Helper lemmas -/

/-- Rounding to two decimals preserves non-negativity. -/
theorem round2_nonneg {x : ℚ} (hx : 0 ≤ x) : 0 ≤ round2 x := by
  unfold round2
  have h : (0 : ℤ) ≤ round (x * 100) := by
    rw [round_eq]
    exact Int.le_floor.mpr (by push_cast; linarith)
  exact div_nonneg (by exact_mod_cast h) (by norm_num)

/-- The banded receipt component is non-negative on non-negative receipts. -/
theorem calculate_receipt_component_nonneg {r : ℚ} (hr : 0 ≤ r) :
    0 ≤ calculate_receipt_component r := by
  unfold calculate_receipt_component
  split_ifs with h1 h2 h3 h4 <;> linarith

/-- Every branch of the outlier calculator is non-negative on valid inputs,
whatever the tag string. -/
theorem calculate_outlier_reimbursement_nonneg {days : ℤ} {miles receipts : ℚ}
    (t : String) (hd : 0 < days) (hm : 0 ≤ miles) (hr : 0 ≤ receipts) :
    0 ≤ calculate_outlier_reimbursement days miles receipts t := by
  have hdq : (1 : ℚ) ≤ (days : ℚ) := by exact_mod_cast hd
  have hmin : 0 ≤ min receipts ((days : ℚ) * 250) := le_min hr (by linarith)
  unfold calculate_outlier_reimbursement
  split_ifs <;> linarith

/-- The unrounded branch total is non-negative on valid inputs. -/
theorem branch_total_nonneg {days : ℤ} {miles receipts : ℚ}
    (hd : 0 < days) (hm : 0 ≤ miles) (hr : 0 ≤ receipts) :
    0 ≤ branch_total days miles receipts := by
  have hdq : (1 : ℚ) ≤ (days : ℚ) := by exact_mod_cast hd
  have hcrc := calculate_receipt_component_nonneg hr
  unfold branch_total
  split_ifs with h1 h2 h3
  · exact calculate_outlier_reimbursement_nonneg _ hd hm hr
  · linarith
  · linarith
  · linarith

/-- On valid inputs the dispatcher returns the rounded branch total. -/
theorem calculate_reimbursement_valid_eq {days : ℤ} {miles receipts : ℚ}
    (hd : 0 < days) (hm : 0 ≤ miles) (hr : 0 ≤ receipts) :
    calculate_reimbursement days miles receipts
      = round2 (branch_total days miles receipts) := by
  unfold calculate_reimbursement
  rw [if_neg]
  push_neg
  exact ⟨hd, hm, hr⟩

/-! ### Claims -/

/-- C1 counterexample: on days=4, miles=69, receipts=2321 the classifier does
NOT return `heavy_cap` and the reimbursement is NOT 555.75: the
`gaming_detection` rule (receipts > 2000, days ≤ 4, miles ≤ 100) fires
first. -/
theorem c1_counterexample :
    detect_outlier_case 4 69 2321 ≠ "heavy_cap" ∧
    calculate_reimbursement 4 69 2321 ≠ 555.75 := by
  constructor
  · decide
  · norm_num +decide [calculate_reimbursement, branch_total, detect_outlier_case,
      calculate_outlier_reimbursement, round2, round_eq]

/-- C1 (amended): calling calculate_reimbursement with days=4, miles=69,
receipts=2321 classifies the trip as `gaming_detection` (that rule is checked
first and matches) and returns 4*35 + 69*0.3 + 2321*0.08 = 346.38. -/
theorem c1_gaming_value :
    detect_outlier_case 4 69 2321 = "gaming_detection" ∧
    calculate_reimbursement 4 69 2321 = 346.38 := by
  constructor
  · decide
  · norm_num +decide [calculate_reimbursement, branch_total, detect_outlier_case,
      calculate_outlier_reimbursement, round2, round_eq]

/-- C2 counterexample: the banded receipt component is NOT continuous at the
boundary 200: the (200,500] branch formula evaluated at receipts=200 gives
200*2.258 = 451.60, while the value at 200 (computed in the (50,200] band)
is 519.20. -/
theorem c2_counterexample :
    ¬ (200 * 2.258 + ((200 : ℚ) - 200) * 1.610 = calculate_receipt_component 200) := by
  norm_num [calculate_receipt_component]

/-- C2 (amended): the banded receipt component is continuous only at the
boundary 50, where both branch formulas give 50*3.610 = 180.50; at each of
the boundaries 200, 500 and 1000 the formula of the band above, evaluated at
the boundary, is strictly below the value at the boundary (a downward
jump). -/
theorem c2_boundary_continuity_only_at_50 :
    (50 * 3.610 + ((50 : ℚ) - 50) * 2.258 = calculate_receipt_component 50 ∧
      calculate_receipt_component 50 = 180.50) ∧
    200 * 2.258 + ((200 : ℚ) - 200) * 1.610 < calculate_receipt_component 200 ∧
    500 * 1.610 + ((500 : ℚ) - 500) * 0.998 < calculate_receipt_component 500 ∧
    1000 * 0.998 + ((1000 : ℚ) - 1000) * 0.3 < calculate_receipt_component 1000 := by
  refine ⟨⟨?_, ?_⟩, ?_, ?_, ?_⟩ <;> norm_num [calculate_receipt_component]

/-- C3: whenever both the gaming_detection rule (receipts > 2000, days ≤ 4,
miles ≤ 100) and the heavy_cap rule (receipts > 2300, days ≤ 5, miles ≤ 100)
match, the classifier returns `gaming_detection`, never `heavy_cap` — first
match wins in source order. -/
theorem c3_gaming_shadows_heavy (days : ℤ) (miles receipts : ℚ)
    (hg : receipts > 2000 ∧ days ≤ 4 ∧ miles ≤ 100)
    (_hh : receipts > 2300 ∧ days ≤ 5 ∧ miles ≤ 100) :
    detect_outlier_case days miles receipts = "gaming_detection" ∧
    detect_outlier_case days miles receipts ≠ "heavy_cap" := by
  unfold detect_outlier_case
  rw [if_pos hg]
  exact ⟨rfl, by decide⟩

/-- C3 witness: days=3, miles=50, receipts=2350 classifies as
`gaming_detection`, not `heavy_cap`. -/
theorem c3_witness :
    detect_outlier_case 3 50 2350 = "gaming_detection" ∧
    detect_outlier_case 3 50 2350 ≠ "heavy_cap" :=
  c3_gaming_shadows_heavy 3 50 2350 (by norm_num) (by norm_num)

/-- C4: on invalid input — non-positive days, negative miles, negative
receipts (first conjunct), or a value that fails numeric coercion (second
conjunct, coercion failure modelled as `none`) — the dispatcher swallows the
error and returns exactly 0. -/
theorem c4_invalid_input_returns_zero (days : ℤ) (miles receipts : ℚ)
    (d? : Option ℤ) (m? r? : Option ℚ)
    (hinv : days ≤ 0 ∨ miles < 0 ∨ receipts < 0)
    (hc : d? = none ∨ m? = none ∨ r? = none) :
    calculate_reimbursement days miles receipts = 0 ∧
    calculate_reimbursement_raw d? m? r? = 0 := by
  constructor
  · unfold calculate_reimbursement
    rw [if_pos hinv]
  · rcases d? with _ | dv <;> rcases m? with _ | mv <;> rcases r? with _ | rv <;>
      simp [calculate_reimbursement_raw] at hc ⊢

/-- C4 witness: days=0 with valid miles=5 and receipts=10 returns 0, and a
failed coercion of days returns 0. -/
theorem c4_witness :
    calculate_reimbursement 0 5 10 = 0 ∧
    calculate_reimbursement_raw none (some 5) (some 10) = 0 :=
  c4_invalid_input_returns_zero 0 5 10 none (some 5) (some 10)
    (Or.inl (by norm_num)) (Or.inl rfl)

/-- C5: for every non-normal outlier tag the outlier calculator returns the
exact (unrounded) linear combination from the coefficient table:
heavy_cap = days*45 + miles*0.4 + receipts*0.15;
abuse_detection = days*40 + miles*0.35 + receipts*0.12;
gaming_detection = days*35 + miles*0.3 + receipts*0.08;
spending_cap = days*50 + miles*0.45 + min(receipts, days*250)*0.2.
The equalities are between exact rationals, so no rounding occurs here. -/
theorem c5_outlier_formulas (days : ℤ) (miles receipts : ℚ) :
    calculate_outlier_reimbursement days miles receipts "heavy_cap"
      = days * 45 + miles * 0.4 + receipts * 0.15 ∧
    calculate_outlier_reimbursement days miles receipts "abuse_detection"
      = days * 40 + miles * 0.35 + receipts * 0.12 ∧
    calculate_outlier_reimbursement days miles receipts "gaming_detection"
      = days * 35 + miles * 0.3 + receipts * 0.08 ∧
    calculate_outlier_reimbursement days miles receipts "spending_cap"
      = days * 50 + miles * 0.45 + min receipts ((days : ℚ) * 250) * 0.2 := by
  refine ⟨?_, ?_, ?_, ?_⟩ <;> simp +decide [calculate_outlier_reimbursement]

/-- C6: on every valid input classified as normal, the dispatcher returns the
two-decimal rounding of the branch formula selected by the receipt level:
100 + days*20 + miles*0.3 + banded component when receipts > 800;
50 + days*35 + miles*0.4 + receipts*0.8 when 200 < receipts ≤ 800;
days*50 + miles*0.5 + receipts*0.1 when receipts ≤ 200.
In particular (2, 300, 900) gives 1434.20 and (1, 0, 0) gives 50.00. -/
theorem c6_normal_branch_formulas (days : ℤ) (miles receipts : ℚ)
    (hd : 0 < days) (hm : 0 ≤ miles) (hr : 0 ≤ receipts)
    (hn : detect_outlier_case days miles receipts = "normal") :
    (receipts > 800 →
      calculate_reimbursement days miles receipts
        = round2 (100 + days * 20 + miles * 0.3 + calculate_receipt_component receipts)) ∧
    (200 < receipts → receipts ≤ 800 →
      calculate_reimbursement days miles receipts
        = round2 (50 + days * 35 + miles * 0.4 + receipts * 0.8)) ∧
    (receipts ≤ 200 →
      calculate_reimbursement days miles receipts
        = round2 (days * 50 + miles * 0.5 + receipts * 0.1)) ∧
    calculate_reimbursement 2 300 900 = 1434.20 ∧
    calculate_reimbursement 1 0 0 = 50 := by
  have hvalid : ¬ (days ≤ 0 ∨ miles < 0 ∨ receipts < 0) := by
    push_neg; exact ⟨hd, hm, hr⟩
  refine ⟨?_, ?_, ?_, ?_, ?_⟩
  · intro h800
    unfold calculate_reimbursement branch_total
    rw [if_neg hvalid, hn, if_neg (by simp), if_pos h800]
  · intro h200 h800
    unfold calculate_reimbursement branch_total
    rw [if_neg hvalid, hn, if_neg (by simp), if_neg (by linarith), if_pos h200]
  · intro h200
    unfold calculate_reimbursement branch_total
    rw [if_neg hvalid, hn, if_neg (by simp), if_neg (by linarith),
      if_neg (by linarith)]
  · norm_num +decide [calculate_reimbursement, branch_total, detect_outlier_case,
      calculate_receipt_component, round2, round_eq]
  · norm_num +decide [calculate_reimbursement, branch_total, detect_outlier_case,
      round2, round_eq]

/-- C6 witness: (2, 300, 900) is valid and classified normal, and the
receipts > 800 branch formula applies, yielding 1434.20. -/
theorem c6_witness :
    calculate_reimbursement 2 300 900
      = round2 (100 + 2 * 20 + 300 * 0.3 + calculate_receipt_component 900) ∧
    calculate_reimbursement 2 300 900 = 1434.20 :=
  ⟨(c6_normal_branch_formulas 2 300 900 (by norm_num) (by norm_num) (by norm_num)
      (by decide)).1 (by norm_num),
   (c6_normal_branch_formulas 2 300 900 (by norm_num) (by norm_num) (by norm_num)
      (by decide)).2.2.2.1⟩

/-- C7: on every valid input (integer days > 0, miles ≥ 0, receipts ≥ 0) the
dispatcher returns exactly the two-decimal rounding of the unrounded branch
total, the result is non-negative, and it is an integer number of cents
(exactly two decimal places of precision). -/
theorem c7_output_rounded_nonneg (days : ℤ) (miles receipts : ℚ)
    (hd : 0 < days) (hm : 0 ≤ miles) (hr : 0 ≤ receipts) :
    calculate_reimbursement days miles receipts
      = round2 (branch_total days miles receipts) ∧
    0 ≤ calculate_reimbursement days miles receipts ∧
    ∃ n : ℤ, calculate_reimbursement days miles receipts = (n : ℚ) / 100 := by
  have heq := calculate_reimbursement_valid_eq hd hm hr
  refine ⟨heq, ?_, ?_⟩
  · rw [heq]
    exact round2_nonneg (branch_total_nonneg hd hm hr)
  · exact ⟨round (branch_total days miles receipts * 100), heq⟩

/-- C7 witness: at (1, 0, 0) the result equals the rounded branch total, is
non-negative, and is an integer number of cents. -/
theorem c7_witness :
    calculate_reimbursement 1 0 0 = round2 (branch_total 1 0 0) ∧
    0 ≤ calculate_reimbursement 1 0 0 ∧
    ∃ n : ℤ, calculate_reimbursement 1 0 0 = (n : ℚ) / 100 :=
  c7_output_rounded_nonneg 1 0 0 (by norm_num) (by norm_num) (by norm_num)

/-- C8: the classifier only ever returns one of the four tags normal,
gaming_detection, heavy_cap, abuse_detection; in particular it never returns
spending_cap, so the spending_cap branch and the fallback branch of the
outlier calculator are unreachable through the dispatcher. -/
theorem c8_four_tags (days : ℤ) (miles receipts : ℚ) :
    (detect_outlier_case days miles receipts = "normal" ∨
     detect_outlier_case days miles receipts = "gaming_detection" ∨
     detect_outlier_case days miles receipts = "heavy_cap" ∨
     detect_outlier_case days miles receipts = "abuse_detection") ∧
    detect_outlier_case days miles receipts ≠ "spending_cap" := by
  unfold detect_outlier_case
  split_ifs <;> exact ⟨by decide, by decide⟩

/-- C9: on valid inputs the classifier returns heavy_cap exactly when
days = 5, receipts > 2300 and miles ≤ 100: every days ≤ 4 case satisfying
the heavy_cap condition is absorbed by the gaming_detection rule, which is
checked first. -/
theorem c9_heavy_cap_iff (days : ℤ) (miles receipts : ℚ)
    (_hd : 0 < days) (_hm : 0 ≤ miles) (_hr : 0 ≤ receipts) :
    detect_outlier_case days miles receipts = "heavy_cap" ↔
      days = 5 ∧ receipts > 2300 ∧ miles ≤ 100 := by
  unfold detect_outlier_case
  split_ifs with h1 h2 h3
  · refine iff_of_false (by decide) ?_
    rintro ⟨h5, -, -⟩
    exact absurd h1.2.1 (by omega)
  · have hd4 : ¬ days ≤ 4 := fun hle => h1 ⟨by linarith [h2.1], hle, h2.2.2⟩
    have h5le : days ≤ 5 := h2.2.1
    exact iff_of_true rfl ⟨by omega, h2.1, h2.2.2⟩
  · refine iff_of_false (by decide) ?_
    rintro ⟨h5, -, -⟩
    exact absurd h3.1 (by omega)
  · exact iff_of_false (by decide) (fun h => h2 ⟨h.2.1, le_of_eq h.1, h.2.2⟩)

/-- C9 witness: days=5, miles=50, receipts=2400 classifies as heavy_cap. -/
theorem c9_witness : detect_outlier_case 5 50 2400 = "heavy_cap" :=
  (c9_heavy_cap_iff 5 50 2400 (by norm_num) (by norm_num) (by norm_num)).mpr
    (by norm_num)

/-- C10: the banded receipt component is not monotone non-decreasing: its
value at 200 is 519.20 but at 201 only 453.21, and there are further downward
jumps past 500 and 1000; consequently there is a pair r1 < r2 of receipt
totals, both on the normal high-receipt path, for which the trip with the
larger receipts gets a strictly smaller reimbursement (1000 ↦ 1424.00 versus
1001 ↦ 1118.30 at days=1, miles=0). -/
theorem c10_receipt_component_not_monotone :
    ¬ Monotone calculate_receipt_component ∧
    calculate_receipt_component 200 = 519.20 ∧
    calculate_receipt_component 201 = 453.21 ∧
    calculate_receipt_component 501 < calculate_receipt_component 500 ∧
    calculate_receipt_component 1001 < calculate_receipt_component 1000 ∧
    ∃ r1 r2 : ℚ, r1 < r2 ∧ 800 < r1 ∧
      detect_outlier_case 1 0 r1 = "normal" ∧
      detect_outlier_case 1 0 r2 = "normal" ∧
      calculate_reimbursement 1 0 r2 < calculate_reimbursement 1 0 r1 := by
  refine ⟨?_, ?_, ?_, ?_, ?_, 1000, 1001, by norm_num, by norm_num, by decide,
    by decide, ?_⟩
  · intro hmono
    have h := hmono (show (200 : ℚ) ≤ 201 by norm_num)
    norm_num [calculate_receipt_component] at h
  · norm_num [calculate_receipt_component]
  · norm_num [calculate_receipt_component]
  · norm_num [calculate_receipt_component]
  · norm_num [calculate_receipt_component]
  · norm_num +decide [calculate_reimbursement, branch_total, detect_outlier_case,
      calculate_receipt_component, round2, round_eq]

end Reimbursement
